import Mathlib

/-!
Verification of the opportunity scanning and scoring engine of the
openclaw-solana-plugins repository (file `src/tools.ts`).

The TypeScript code is shallowly embedded: JavaScript numbers are modelled
as exact rationals (`ℚ`), the `x || 0` defaulting of missing JSON fields is
modelled by taking the already-defaulted rational value as the field, and
network fetches are modelled by an explicit environment (`ScanEnv`) that
records, for each fetch the code performs, either the parsed payload or a
thrown failure (`Except.error`).
-/

namespace SolanaScan

/-- Price change percentages over the four windows, as read by the code
(`pair.priceChange?.m5 || 0` and friends in `tools.ts`): a missing field
defaults to `0`, so each field is just a rational. -/
structure PriceChange where
  m5 : ℚ
  h1 : ℚ
  h6 : ℚ
  h24 : ℚ
deriving DecidableEq, Repr

/-- One DexScreener pair object, restricted to the fields `tools.ts`
actually reads. `baseTokenSymbol` models `pair.baseToken?.symbol`
(`none` when absent); the numeric fields model the `|| 0`-defaulted values
of `pair.priceUsd`, `pair.volume?.h24`, `pair.liquidity?.usd`, `pair.fdv`,
`pair.txns?.h24?.buys` and `pair.txns?.h24?.sells`. -/
structure Pair where
  baseTokenSymbol : Option String
  priceUsd : ℚ
  priceChange : PriceChange
  volume24h : ℚ
  liquidity : ℚ
  fdv : ℚ
  buys24h : ℚ
  sells24h : ℚ
deriving DecidableEq, Repr

/-- One GeckoTerminal pool `attributes` object, restricted to the fields
`tools.ts` reads: `name`, `base_token_price_usd` (parsed), the
`price_change_percentage` sub-object, `volume_usd.h24` (parsed) and
`reserve_in_usd` (parsed). -/
structure GeckoAttr where
  name : String
  baseTokenPriceUsd : ℚ
  priceChange : PriceChange
  volume24h : ℚ
  reserve : ℚ
deriving DecidableEq, Repr

/-- Embedding of `calculateOpportunityScore` (tools.ts lines 117-155).
Note the faithful translations of two JavaScript idioms: the valuation
bands are the literal `if (fdv > 0 && fdv < 500000) ... else if (fdv < 2000000) ...`
chain, and `liquidity || 1` / `sells24h || 1` become
`if x = 0 then 1 else x` (JavaScript `||` replaces only the falsy value 0). -/
def calculateOpportunityScore (pair : Pair) : ℚ :=
  let priceChange := pair.priceChange
  let liquidity := pair.liquidity
  let volume24h := pair.volume24h
  let fdv := pair.fdv
  let buys24h := pair.buys24h
  let sells24h := pair.sells24h
  let score : ℚ := 0
  -- Early stage bonus (lower FDV = more upside)
  let score := if 0 < fdv ∧ fdv < 500000 then score + 30
    else if fdv < 2000000 then score + 20
    else if fdv < 10000000 then score + 10
    else score
  -- Momentum (rising price)
  let score := if 0 < priceChange.m5 ∧ priceChange.m5 < 15 then score + priceChange.m5 * 3 else score
  let score := if 0 < priceChange.h1 ∧ priceChange.h1 < 30 then score + priceChange.h1 * 2 else score
  let score := if 5 < priceChange.h1 ∧ 0 < priceChange.m5 then score + 15 else score
  -- Volume/Liquidity ratio
  let ratioVolLiq := volume24h / (if liquidity = 0 then 1 else liquidity)
  let score := if 2 < ratioVolLiq then score + 20 else score
  let score := if 5 < ratioVolLiq then score + 15 else score
  -- Buy pressure
  let ratioBuySell := buys24h / (if sells24h = 0 then 1 else sells24h)
  let score := if (1.3 : ℚ) < ratioBuySell then score + 15 else score
  let score := if 2 < ratioBuySell then score + 10 else score
  -- Penalties
  let score := if 30 < priceChange.m5 then score - 25 else score
  let score := if priceChange.h1 < -15 then score - 20 else score
  let score := if priceChange.h24 < -40 then score - 20 else score
  let score := if liquidity < 15000 then score - 10 else score
  let score := if ratioBuySell < (0.5 : ℚ) then score - 15 else score
  max 0 score

/-- Embedding of `calculateGeckoScore` (tools.ts lines 160-183). -/
def calculateGeckoScore (attr : GeckoAttr) : ℚ :=
  let priceChange := attr.priceChange
  let liquidity := attr.reserve
  let volume24h := attr.volume24h
  let score : ℚ := 0
  -- Momentum
  let score := if 0 < priceChange.h1 ∧ priceChange.h1 < 30 then score + priceChange.h1 * 2 else score
  let score := if 0 < priceChange.h6 ∧ priceChange.h6 < 50 then score + priceChange.h6 else score
  -- Volume/Liquidity
  let ratioVolLiq := volume24h / (if liquidity = 0 then 1 else liquidity)
  let score := if 2 < ratioVolLiq then score + 20 else score
  -- Base score for trending
  let score := score + 10
  -- Penalties
  let score := if priceChange.h1 < -15 then score - 20 else score
  let score := if liquidity < 15000 then score - 10 else score
  max 0 score

/-- Modelled from the wording of the spec for claim C6 only: the same primary
scorer, but with the volume/liquidity ratio computed as
`volume24h / max(liquidity, 1)` as §4.2 of the spec states, instead of the
source expression `volume24h / (liquidity || 1)`. Used to compare the two readings. -/
def calculateOpportunityScoreMaxLiq (pair : Pair) : ℚ :=
  let priceChange := pair.priceChange
  let liquidity := pair.liquidity
  let volume24h := pair.volume24h
  let fdv := pair.fdv
  let buys24h := pair.buys24h
  let sells24h := pair.sells24h
  let score : ℚ := 0
  let score := if 0 < fdv ∧ fdv < 500000 then score + 30
    else if fdv < 2000000 then score + 20
    else if fdv < 10000000 then score + 10
    else score
  let score := if 0 < priceChange.m5 ∧ priceChange.m5 < 15 then score + priceChange.m5 * 3 else score
  let score := if 0 < priceChange.h1 ∧ priceChange.h1 < 30 then score + priceChange.h1 * 2 else score
  let score := if 5 < priceChange.h1 ∧ 0 < priceChange.m5 then score + 15 else score
  let ratioVolLiq := volume24h / max liquidity 1
  let score := if 2 < ratioVolLiq then score + 20 else score
  let score := if 5 < ratioVolLiq then score + 15 else score
  let ratioBuySell := buys24h / (if sells24h = 0 then 1 else sells24h)
  let score := if (1.3 : ℚ) < ratioBuySell then score + 15 else score
  let score := if 2 < ratioBuySell then score + 10 else score
  let score := if 30 < priceChange.m5 then score - 25 else score
  let score := if priceChange.h1 < -15 then score - 20 else score
  let score := if priceChange.h24 < -40 then score - 20 else score
  let score := if liquidity < 15000 then score - 10 else score
  let score := if ratioBuySell < (0.5 : ℚ) then score - 15 else score
  max 0 score

/-- A pair with `fdv = 0` (the value the code assigns when `pair.fdv` is
missing), comfortable liquidity and balanced buys/sells, so that the
early-stage branch is the only score contribution. -/
def pairFdvZero : Pair :=
  { baseTokenSymbol := some "ZRO"
    priceUsd := 1
    priceChange := { m5 := 0, h1 := 0, h6 := 0, h24 := 0 }
    volume24h := 0
    liquidity := 20000
    fdv := 0
    buys24h := 1
    sells24h := 1 }

/-- The worked scenario input of the spec (§8): fdv=300000, m5=5, h1=10,
liquidity=50000, volume24h=150000, buys=120, sells=80. -/
def pairScenario : Pair :=
  { baseTokenSymbol := some "SCN"
    priceUsd := 1
    priceChange := { m5 := 5, h1 := 10, h6 := 0, h24 := 0 }
    volume24h := 150000
    liquidity := 50000
    fdv := 300000
    buys24h := 120
    sells24h := 80 }

/-- A pair whose liquidity is strictly between 0 and 1: volume 3,
liquidity 1/2, everything else zero. Here `liquidity || 1` keeps the
liquidity (ratio 6) while `max(liquidity, 1)` would give ratio 3. -/
def pairLowLiq : Pair :=
  { baseTokenSymbol := none
    priceUsd := 0
    priceChange := { m5 := 0, h1 := 0, h6 := 0, h24 := 0 }
    volume24h := 3
    liquidity := 1/2
    fdv := 0
    buys24h := 0
    sells24h := 0 }

/-- One entry of the DexScreener boosted-tokens payload, restricted to the
two fields `tools.ts` reads: `tokenAddress` and `chainId`. -/
structure BoostedToken where
  tokenAddress : String
  chainId : String
deriving DecidableEq, Repr

/-- One entry of the GeckoTerminal trending-pools payload. `baseTokenId`
models `pool.relationships?.base_token?.data?.id || ""` (the composite
identifier, already defaulted to the empty string when absent);
`attributes` models `pool.attributes`. -/
structure Pool where
  baseTokenId : String
  attributes : GeckoAttr
deriving DecidableEq, Repr

/-- The Candidate shape pushed onto `opportunities` in `scanOpportunities`. -/
structure Candidate where
  mint : String
  symbol : String
  priceUsd : ℚ
  priceChange : PriceChange
  volume24h : ℚ
  liquidity : ℚ
  fdv : ℚ
  source : String
  score : ℚ
deriving DecidableEq, Repr

/-- Fetch environment of one `scanOpportunities` call: the outcome of the
boosted-tokens fetch (line 35), of each per-token detail fetch (line 41,
keyed by token address), and of the trending-pools fetch (line 70). An
`Except.error` models a thrown network/parse failure. -/
structure ScanEnv where
  boosted : Except String (List BoostedToken)
  tokenDetail : String → Except String (List Pair)
  trending : Except String (List Pool)

/-- Embedding of the JavaScript `x || "Unknown"` applied to an optional
string: both a missing value and the (falsy) empty string give
`"Unknown"`. -/
def orUnknown : Option String → String
  | none => "Unknown"
  | some s => if s = "" then "Unknown" else s

/-- The candidate object pushed for one boosted token (tools.ts lines
46-61): mint is the boosted token address, the remaining fields come from
the first pair of the detail payload, and the score is
`calculateOpportunityScore`. -/
def boostedCandidate (tokenAddress : String) (pair : Pair) : Candidate :=
  { mint := tokenAddress
    symbol := orUnknown pair.baseTokenSymbol
    priceUsd := pair.priceUsd
    priceChange := pair.priceChange
    volume24h := pair.volume24h
    liquidity := pair.liquidity
    fdv := pair.fdv
    source := "dexscreener-boosted"
    score := calculateOpportunityScore pair }

/-- Embedding of the symbol expression on line 81 of tools.ts
(name split on the slash, first segment, defaulted): the first
segment of the name before a `/`, with the empty result replaced by
`"Unknown"`. -/
def geckoSymbol (name : String) : String :=
  orUnknown (some (String.mk (name.data.takeWhile fun c => c ≠ '/')))

/-- The candidate object pushed for one trending pool (tools.ts lines
79-94): `fdv` is hardcoded to 0 (not available from GeckoTerminal) and the
score is `calculateGeckoScore`. -/
def geckoCandidate (tokenAddr : String) (attr : GeckoAttr) : Candidate :=
  { mint := tokenAddr
    symbol := geckoSymbol attr.name
    priceUsd := attr.baseTokenPriceUsd
    priceChange := attr.priceChange
    volume24h := attr.volume24h
    liquidity := attr.reserve
    fdv := 0
    source := "geckoterminal-trending"
    score := calculateGeckoScore attr }

/-- Remove the first occurrence of `pat` from a character list. -/
def replaceFirstChars (pat : List Char) : List Char → List Char
  | [] => []
  | c :: cs =>
    if pat.isPrefixOf (c :: cs) then (c :: cs).drop pat.length
    else c :: replaceFirstChars pat cs

/-- Embedding of JavaScript `s.replace(pat, "")` with a string pattern:
unlike the Lean `String.replace`, it removes only the FIRST occurrence of
`pat` (this is what `baseTokenId.replace("solana_", "")` does on line 75). -/
def replaceFirst (s pat : String) : String :=
  String.mk (replaceFirstChars pat.data s.data)

/-- Embedding of the boosted-token loop (tools.ts lines 39-66): for each
token, attempt the per-token detail fetch; on a thrown fetch the item is
skipped (inner catch, line 63), on an empty or missing `pairs` array the
item is skipped (line 44), otherwise the first pair becomes a candidate. -/
def boostedCandidates (tokenDetail : String → Except String (List Pair)) :
    List BoostedToken → List Candidate
  | [] => []
  | token :: rest =>
    match tokenDetail token.tokenAddress with
    | .error _ => boostedCandidates tokenDetail rest
    | .ok [] => boostedCandidates tokenDetail rest
    | .ok (pair :: _) =>
        boostedCandidate token.tokenAddress pair :: boostedCandidates tokenDetail rest

/-- Embedding of the trending-pools loop (tools.ts lines 73-96): extract
the base-token address by removing the first `"solana_"` from the
composite id, and keep the entry only when the address is non-empty and
strictly longer than 10 characters. -/
def trendingCandidates : List Pool → List Candidate
  | [] => []
  | pool :: rest =>
    let tokenAddr := replaceFirst pool.baseTokenId "solana_"
    if tokenAddr ≠ "" ∧ 10 < tokenAddr.length then
      geckoCandidate tokenAddr pool.attributes :: trendingCandidates rest
    else trendingCandidates rest

/-- The `opportunities` array as built by lines 33-102 of `tools.ts`, in
push order. The single outer `try` wraps BOTH provider sections: when the
boosted fetch throws, control jumps to the outer catch (line 100) and the
trending section is never reached, so the whole array stays empty. A
trending-fetch failure is caught by its own inner catch (line 97) and only
that section contributes nothing. -/
def scanBody (env : ScanEnv) (maxResults : Nat) : List Candidate :=
  match env.boosted with
  | .error _ => []
  | .ok boostedData =>
    let solTokens := (boostedData.filter fun t => t.chainId == "solana").take maxResults
    let fromBoosted := boostedCandidates env.tokenDetail solTokens
    let fromTrending :=
      match env.trending with
      | .error _ => []
      | .ok pools => trendingCandidates (pools.take maxResults)
    fromBoosted ++ fromTrending

/-- Embedding of the dedup filter (tools.ts lines 105-107): keep the
element at index `i` exactly when the first index holding its mint is `i`
(`index === self.findIndex(o => o.mint === opp.mint)`). -/
def dedupByMint (l : List Candidate) : List Candidate :=
  (l.enum.filter fun p => l.findIdx (fun o => o.mint == p.2.mint) == p.1).map Prod.snd

/-- The comparator of line 110, `(a, b) => b.score - a.score`, as the
relation "a may come before b": b.score ≤ a.score (descending order). -/
def scoreGe (a b : Candidate) : Prop := b.score ≤ a.score

instance : DecidableRel scoreGe :=
  fun a b => inferInstanceAs (Decidable (b.score ≤ a.score))

instance : IsTotal Candidate scoreGe := ⟨fun a b => le_total b.score a.score⟩

instance : IsTrans Candidate scoreGe := ⟨fun _ _ _ h1 h2 => le_trans h2 h1⟩

/-- Embedding of `scanOpportunities` (tools.ts lines 30-112): build the
opportunities array, deduplicate by mint keeping first occurrences, sort
by score descending (a stable sort, as JavaScript `Array.sort` is), and
truncate to `maxResults`. The `chain` parameter is declared by the source
but never read. -/
def scanOpportunities (env : ScanEnv) (chain : String) (maxResults : Nat) : List Candidate :=
  let opportunities := scanBody env maxResults
  let uniqueOpportunities := dedupByMint opportunities
  (uniqueOpportunities.insertionSort scoreGe).take maxResults

/-- Result shape of the `solana_scan` tool handler: success with the
opportunities and their count, or an explicit failure with a reason. -/
inductive ScanToolResult where
  | success (opportunities : List Candidate) (count : Nat)
  | failure (error : String)
deriving DecidableEq, Repr

/-- Embedding of the `solana_scan` handler (tools.ts lines 333-350): call
`scanOpportunities` and wrap the list with its count; the surrounding
try/catch turns an unexpected internal fault into
`ScanToolResult.failure`, but since the embedded scan is a total function
the success branch is the only reachable one. -/
def solanaScanHandler (env : ScanEnv) (chain : String) (maxResults : Nat) : ScanToolResult :=
  let opportunities := scanOpportunities env chain maxResults
  ScanToolResult.success opportunities opportunities.length

/-- Modelled from the amended wording of claim C7: keep exactly the
trending entries whose extracted address has MORE than 10 characters and
yield a candidate for each, in order. Compared against the source-derived
`trendingCandidates`. -/
def trendingCandidatesSpec (pools : List Pool) : List Candidate :=
  (pools.filter fun pool => 10 < (replaceFirst pool.baseTokenId "solana_").length).map
    fun pool => geckoCandidate (replaceFirst pool.baseTokenId "solana_") pool.attributes

/-- A boosted pair with a large valuation and flat metrics: its score is 0,
strictly below the 10 points of a trending candidate. -/
def pairDull : Pair :=
  { baseTokenSymbol := some "DULL"
    priceUsd := 1
    priceChange := { m5 := 0, h1 := 0, h6 := 0, h24 := 0 }
    volume24h := 0
    liquidity := 20000
    fdv := 20000000
    buys24h := 1
    sells24h := 1 }

/-- Trending attributes with flat metrics and healthy reserve: the gecko
score is exactly the flat +10 trending bonus. -/
def attrTrend : GeckoAttr :=
  { name := "AAA/SOL"
    baseTokenPriceUsd := 1
    priceChange := { m5 := 0, h1 := 0, h6 := 0, h24 := 0 }
    volume24h := 0
    reserve := 20000 }

/-- Same flat attributes under a second token name. -/
def attrTrendB : GeckoAttr :=
  { name := "BBB/SOL"
    baseTokenPriceUsd := 1
    priceChange := { m5 := 0, h1 := 0, h6 := 0, h24 := 0 }
    volume24h := 0
    reserve := 20000 }

/-- A trending pool whose base token is the 16-character mint
`MINTAAAAAAAAAAAA` (address passes the length filter). -/
def poolTrend : Pool :=
  { baseTokenId := "solana_MINTAAAAAAAAAAAA", attributes := attrTrend }

/-- A trending pool for the distinct 16-character mint `MINTBBBBBBBBBBBB`. -/
def poolTrendB : Pool :=
  { baseTokenId := "solana_MINTBBBBBBBBBBBB", attributes := attrTrendB }

/-- A trending pool whose extracted address `ABCDEFGHIJ` has exactly 10
characters. -/
def pool10 : Pool :=
  { baseTokenId := "solana_ABCDEFGHIJ", attributes := attrTrend }

/-- Environment in which the boosted-tokens top-level fetch throws while
the trending fetch succeeds with one perfectly parseable pool. -/
def envBoostedFail : ScanEnv :=
  { boosted := .error "network error"
    tokenDetail := fun _ => .error "down"
    trending := .ok [poolTrend] }

/-- The same trending payload, but the boosted fetch succeeds with an
empty token list instead of throwing. -/
def envTrendingOnly : ScanEnv :=
  { boosted := .ok []
    tokenDetail := fun _ => .error "down"
    trending := .ok [poolTrend] }

/-- Environment in which both providers yield the mint `MINTAAAAAAAAAAAA`
(boosted with score 0, trending with score 10) and the trending provider
additionally yields `MINTBBBBBBBBBBBB` (score 10). -/
def envTwoSources : ScanEnv :=
  { boosted := .ok [{ tokenAddress := "MINTAAAAAAAAAAAA", chainId := "solana" }]
    tokenDetail := fun _ => .ok [pairDull]
    trending := .ok [poolTrend, poolTrendB] }

/-- C5: for every input, the result of both scoring functions
(`calculateOpportunityScore` and `calculateGeckoScore`) is nonnegative —
negative running totals are floored to 0 by the final `max 0`. -/
theorem score_nonneg (pair : Pair) (attr : GeckoAttr) :
    0 ≤ calculateOpportunityScore pair ∧ 0 ≤ calculateGeckoScore attr := by
  constructor
  · exact le_max_left 0 _
  · exact le_max_left 0 _

/-- C8: the worked scenario of the spec — fdv=300000, m5=5, h1=10, h6=0, h24=0,
liquidity=50000, volume24h=150000, buys=120, sells=80 — scores exactly 115
(+30 early stage, +15 m5 momentum, +20 h1 momentum, +15 confirmation,
+20 vol/liq ratio, +15 buy ratio, no penalties). -/
theorem calculateOpportunityScore_scenario_115 :
    calculateOpportunityScore pairScenario = 115 := by
  norm_num [calculateOpportunityScore, pairScenario]

/-- C2 (code bug): at `fdv = 0` the early-stage branch of the code adds
+20, not +0. The guard `fdv > 0` in the first band shows the intent of
excluding unknown valuations, but the `else if (fdv < 2000000)` chain
catches `fdv = 0`. At `pairFdvZero` every other contribution is zero and
no penalty fires, yet the score is 20 where the claim demands 0. -/
theorem calculateOpportunityScore_fdv_zero_gets_early_bonus :
    calculateOpportunityScore pairFdvZero = 20 := by
  norm_num [calculateOpportunityScore, pairFdvZero]

/-- C6 (counterexample): at liquidity 1/2 and volume 3, the ratio of the code
`volume24h / (liquidity || 1)` is 6 (firing both +20 and +15), while the
claimed ratio `volume24h / max(liquidity, 1)` would be 3 (firing +20
only): the two scorers disagree, 30 against 15, so the ratio used is not
`volume24h / max(liquidity, 1)` for liquidity strictly between 0 and 1. -/
theorem ratioVolLiq_maxLiq_counterexample :
    calculateOpportunityScore pairLowLiq = 30 ∧
      calculateOpportunityScoreMaxLiq pairLowLiq = 15 := by
  constructor
  · norm_num [calculateOpportunityScore, pairLowLiq]
  · norm_num [calculateOpportunityScoreMaxLiq, pairLowLiq]

/-- C6 (amended): the ratio the code uses is
`volume24h / (liquidity = 0 ? 1 : liquidity)` (JavaScript `liquidity || 1`);
it coincides with the claimed `volume24h / max(liquidity, 1)` exactly on
the inputs with liquidity = 0 or liquidity ≥ 1, where the two scorers
agree. -/
theorem calculateOpportunityScore_eq_maxLiq (pair : Pair)
    (h : pair.liquidity = 0 ∨ 1 ≤ pair.liquidity) :
    calculateOpportunityScore pair = calculateOpportunityScoreMaxLiq pair := by
  have hden : (if pair.liquidity = 0 then (1 : ℚ) else pair.liquidity)
      = max pair.liquidity 1 := by
    rcases h with h | h
    · rw [if_pos h, h]
      norm_num
    · rw [if_neg (by linarith), max_eq_left h]
  simp only [calculateOpportunityScore, calculateOpportunityScoreMaxLiq, hden]

/-- Witness for `calculateOpportunityScore_eq_maxLiq` at `pairFdvZero`,
whose liquidity 20000 satisfies the right disjunct. -/
theorem calculateOpportunityScore_eq_maxLiq_witness :
    calculateOpportunityScore pairFdvZero = calculateOpportunityScoreMaxLiq pairFdvZero :=
  calculateOpportunityScore_eq_maxLiq pairFdvZero (Or.inr (by norm_num [pairFdvZero]))

/-- If `findIdx p` points at index `i` and the element at `i` is `c`, then
`find? p` returns exactly `c`. -/
theorem find?_of_findIdx_getElem {α : Type} (p : α → Bool) :
    ∀ (l : List α) (i : Nat) (c : α), l.findIdx p = i → l[i]? = some c →
      l.find? p = some c := by
  intro l
  induction l with
  | nil => intro i c _ h2; simp at h2
  | cons x xs ih =>
    intro i c h1 h2
    by_cases hx : p x
    · simp only [List.findIdx_cons, hx, cond_true] at h1
      subst h1
      rw [List.getElem?_cons_zero] at h2
      rw [List.find?_cons_of_pos _ hx]
      exact h2
    · simp only [List.findIdx_cons, hx, cond_false, Bool.false_eq_true] at h1
      subst h1
      rw [List.getElem?_cons_succ] at h2
      rw [List.find?_cons_of_neg _ hx]
      exact ih _ _ rfl h2

/-- Every element retained by the dedup filter is the FIRST element of the
original list carrying its mint: the `index === findIndex` test keeps
exactly first occurrences. -/
theorem mem_dedupByMint_find? {l : List Candidate} {c : Candidate}
    (hc : c ∈ dedupByMint l) :
    l.find? (fun o => o.mint == c.mint) = some c := by
  rcases List.mem_map.1 hc with ⟨q, hq, rfl⟩
  rcases List.mem_filter.1 hq with ⟨henum, hpred⟩
  have hidx : l.findIdx (fun o => o.mint == q.2.mint) = q.1 := by
    simpa using hpred
  have hget : l[q.1]? = some q.2 := List.mem_enum_iff_getElem?.1 henum
  exact find?_of_findIdx_getElem _ l q.1 q.2 hidx hget

/-- The dedup filter leaves no two candidates with the same mint: two
retained entries with equal mints would have equal first-occurrence
indices and hence be the same entry of the enumeration. -/
theorem dedupByMint_pairwise (l : List Candidate) :
    (dedupByMint l).Pairwise fun a b => a.mint ≠ b.mint := by
  have henum : l.enum.Pairwise fun p q : Nat × Candidate => p.1 ≠ q.1 := by
    have h := List.nodup_enum_map_fst l
    exact List.pairwise_map.1 h
  have hfil := henum.filter fun p => l.findIdx (fun o => o.mint == p.2.mint) == p.1
  refine List.pairwise_map.2 (hfil.imp_of_mem ?_)
  intro a b ha hb hne hmint
  have hpa : l.findIdx (fun o => o.mint == a.2.mint) = a.1 := by
    simpa using (List.mem_filter.1 ha).2
  have hpb : l.findIdx (fun o => o.mint == b.2.mint) = b.1 := by
    simpa using (List.mem_filter.1 hb).2
  apply hne
  rw [← hpa, ← hpb, hmint]

/-- C3: the scan output holds no two candidates with the same mint, and
every output candidate is the first occurrence of its mint in the
concatenated per-adapter list `scanBody` (boosted pushed before trending),
regardless of score. -/
theorem scanOpportunities_dedup_first_occurrence (env : ScanEnv) (chain : String)
    (maxResults : Nat) :
    ((scanOpportunities env chain maxResults).Pairwise fun a b => a.mint ≠ b.mint) ∧
    ∀ c ∈ scanOpportunities env chain maxResults,
      (scanBody env maxResults).find? (fun o => o.mint == c.mint) = some c := by
  have hperm : List.Perm ((dedupByMint (scanBody env maxResults)).insertionSort scoreGe)
      (dedupByMint (scanBody env maxResults)) := List.perm_insertionSort _ _
  constructor
  · have hp := dedupByMint_pairwise (scanBody env maxResults)
    have hsorted := (hperm.pairwise_iff fun {a b} h => fun he => h he.symm).2 hp
    exact hsorted.take
  · intro c hc
    have hc2 : c ∈ (dedupByMint (scanBody env maxResults)).insertionSort scoreGe :=
      List.mem_of_mem_take hc
    exact mem_dedupByMint_find? (hperm.subset hc2)

/-- Witness for `scanOpportunities_dedup_first_occurrence` at
`envTwoSources`: both providers yield mint `MINTAAAAAAAAAAAA`, boosted
first with score 0 and trending second with score 10, yet the candidate
retained in the output is the boosted one — the first occurrence, not the
higher-scored one. -/
theorem scanOpportunities_dedup_first_occurrence_witness :
    (scanBody envTwoSources 5).find?
      (fun o => o.mint == (boostedCandidate "MINTAAAAAAAAAAAA" pairDull).mint)
      = some (boostedCandidate "MINTAAAAAAAAAAAA" pairDull) := by
  have hmem : boostedCandidate "MINTAAAAAAAAAAAA" pairDull
      ∈ scanOpportunities envTwoSources "solana" 5 := by
    have h : scanOpportunities envTwoSources "solana" 5
        = [geckoCandidate "MINTBBBBBBBBBBBB" attrTrendB,
           boostedCandidate "MINTAAAAAAAAAAAA" pairDull] := by
      norm_num [scanOpportunities, scanBody, envTwoSources, trendingCandidates, poolTrend,
        poolTrendB, boostedCandidates, replaceFirst, replaceFirstChars, dedupByMint,
        List.insertionSort, List.orderedInsert, List.enum, List.enumFrom, List.findIdx,
        List.findIdx.go, scoreGe, calculateOpportunityScore, calculateGeckoScore, pairDull,
        attrTrend, attrTrendB, geckoCandidate, boostedCandidate]
    rw [h]
    simp
  exact (scanOpportunities_dedup_first_occurrence envTwoSources "solana" 5).2 _ hmem

/-- C4: for every environment, the scan output is sorted by score
descending (relation `scoreGe`) and no longer than `maxResults`. -/
theorem scanOpportunities_sorted_desc_truncated (env : ScanEnv) (chain : String)
    (maxResults : Nat) (hpos : 0 < maxResults) :
    (scanOpportunities env chain maxResults).Sorted scoreGe ∧
    (scanOpportunities env chain maxResults).length ≤ maxResults := by
  constructor
  · exact (List.sorted_insertionSort scoreGe (dedupByMint (scanBody env maxResults))).take
  · exact List.length_take_le _ _

/-- Witness for `scanOpportunities_sorted_desc_truncated` at
`envTwoSources` with `maxResults = 5`. -/
theorem scanOpportunities_sorted_desc_truncated_witness :
    (scanOpportunities envTwoSources "solana" 5).Sorted scoreGe ∧
    (scanOpportunities envTwoSources "solana" 5).length ≤ 5 :=
  scanOpportunities_sorted_desc_truncated envTwoSources "solana" 5 (by norm_num)

/-- C10: the `chain` argument is never read by `scanOpportunities` — the
chain filter and the trending URL are hardcoded to solana — so any two
chain strings produce identical results over the same fetch outcomes. -/
theorem scanOpportunities_chain_has_no_effect (env : ScanEnv) (c1 c2 : String)
    (maxResults : Nat) :
    scanOpportunities env c1 maxResults = scanOpportunities env c2 maxResults := rfl

/-- C9: for every environment — that is, every combination of provider
failures — the `solana_scan` handler returns a success result carrying the
(possibly empty) opportunities list and its count; no exception reaches
the caller. -/
theorem solanaScanHandler_always_success (env : ScanEnv) (chain : String)
    (maxResults : Nat) :
    ∃ opportunities, solanaScanHandler env chain maxResults
      = ScanToolResult.success opportunities opportunities.length :=
  ⟨scanOpportunities env chain maxResults, rfl⟩

/-- C1 (counterexample): with the boosted top-level fetch throwing and the
trending fetch succeeding with a parseable pool, the scan output is empty
— the trending candidate is lost. The second conjunct shows the very same
trending payload does produce a candidate when the boosted fetch merely
returns no tokens, so the loss is caused by the boosted failure alone. -/
theorem scanOpportunities_boosted_failure_counterexample :
    scanOpportunities envBoostedFail "solana" 5 = [] ∧
    scanOpportunities envTrendingOnly "solana" 5
      = [geckoCandidate "MINTAAAAAAAAAAAA" attrTrend] := by
  constructor
  · rfl
  · norm_num [scanOpportunities, scanBody, envTrendingOnly, trendingCandidates, poolTrend,
      replaceFirst, replaceFirstChars, dedupByMint, List.insertionSort, List.orderedInsert,
      List.enum, List.enumFrom, List.findIdx, List.findIdx.go, scoreGe]

/-- C1 (amended): fault isolation holds in one direction only. A trending
fetch failure is equivalent to an empty trending payload, so the boosted
candidates are unaffected; but a boosted top-level fetch failure jumps to
the single outer catch, skips the trending section entirely, and the scan
returns the empty list. -/
theorem scanOpportunities_fault_isolation_amended (env : ScanEnv) (chain : String)
    (maxResults : Nat) (e : String) :
    scanOpportunities { env with trending := .error e } chain maxResults
      = scanOpportunities { env with trending := .ok [] } chain maxResults
    ∧ (env.boosted = .error e → scanOpportunities env chain maxResults = []) := by
  constructor
  · unfold scanOpportunities scanBody
    cases env.boosted <;> simp [trendingCandidates]
  · intro hb
    simp [scanOpportunities, scanBody, hb, dedupByMint, List.insertionSort]

/-- Witness for `scanOpportunities_fault_isolation_amended` at
`envBoostedFail`, discharging the boosted-failure premise. -/
theorem scanOpportunities_fault_isolation_witness :
    scanOpportunities envBoostedFail "solana" 5 = [] :=
  (scanOpportunities_fault_isolation_amended envBoostedFail "solana" 5 "network error").2 rfl

/-- C7 (counterexample): the pool whose extracted address `ABCDEFGHIJ` has
exactly 10 characters is discarded by the trending adapter — the code
keeps an entry only when the address is strictly longer than 10, so "10 or
more characters" is not enough to be yielded. -/
theorem trending_ten_char_address_discarded :
    (replaceFirst pool10.baseTokenId "solana_").length = 10 ∧
    trendingCandidates [pool10] = [] := by
  constructor
  · rfl
  · rfl

/-- C7 (amended): the trending adapter keeps exactly the entries whose
extracted address has MORE than 10 characters (discarding those with at
most 10, the empty address among them), and yields a candidate for each
kept entry. -/
theorem trendingCandidates_eq_spec (pools : List Pool) :
    trendingCandidates pools = trendingCandidatesSpec pools := by
  induction pools with
  | nil => rfl
  | cons pool rest ih =>
    by_cases hlen : 10 < (replaceFirst pool.baseTokenId "solana_").length
    · have hne : replaceFirst pool.baseTokenId "solana_" ≠ "" := by
        intro h0
        rw [h0] at hlen
        simp at hlen
      simp [trendingCandidates, trendingCandidatesSpec, List.filter_cons, hlen, hne]
      simpa [trendingCandidatesSpec] using ih
    · simp [trendingCandidates, trendingCandidatesSpec, List.filter_cons, hlen]
      simpa [trendingCandidatesSpec] using ih

end SolanaScan
